import Mathlib

/-!
# Verification of the better-claw session-rotation engine and message queue

Shallow embedding of the core of the repository:

* the session store (`src/core/session-store.ts`): typed per-user persistence of
  the active-session pointer, archived session metadata, conversation logs and
  the cumulative summary;
* the rotation engine (`session-manager`): `rotateSession`,
  `startBackgroundPrep` / its async completion, `performInstantSwitch`,
  `ensureActiveSession`, `updateSessionAfterQuery`, `consolidateOldSessions`;
* the per-user message queue (`queue`): `processMessage`'s rate-limit branch,
  `pauseAndScheduleResume`, `processNext`, `enqueue`.

All state is keyed per user in the source, with no cross-user access; the
embedding therefore models the state documents of one user.  Timestamps are
Unix milliseconds as `Nat` (the source stores ISO strings and compares their
`Date.getTime()` values).  Monetary costs and configured ratios are exact
rationals (the source uses JS numbers).  External HTTP calls (the summary API
and the condense API) are modelled by `Except Unit String` oracle outcomes
supplied as parameters: `.ok s` is a response with text `s`, `.error ()` a
thrown failure.  Fresh session-id generation (`generateId`) is modelled by a
supplied fresh identifier.
-/

namespace BetterClaw

/-- Conversation roles.  The source's `ConversationEntry.role` type is the
string union `'user' | 'assistant'`. -/
inductive Role where
  | user
  | assistant
deriving DecidableEq, Repr, BEq

/-- Content block of an assistant message (`ConversationBlock` in
`session-store.ts`); carried through opaquely by the engine. -/
structure ConversationBlock where
  btype : String
  text : Option String := none
  toolName : Option String := none
  toolId : Option String := none
deriving DecidableEq, Repr

/-- Per-turn metadata attached to assistant conversation entries. -/
structure EntryMetadata where
  costUsd : Option ℚ := none
  turns : Option ℕ := none
  durationMs : Option ℕ := none
deriving DecidableEq, Repr

/-- One row of the append-only conversation log (`ConversationEntry`). -/
structure ConversationEntry where
  timestamp : ℕ
  role : Role
  content : String
  blocks : Option (List ConversationBlock) := none
  metadata : Option EntryMetadata := none
deriving DecidableEq, Repr

/-- Carryover entry `{timestamp, role, content}` written into a new session's
metadata by the instant switch. -/
structure CarryoverEntry where
  timestamp : ℕ
  role : Role
  content : String
deriving DecidableEq, Repr

/-- Session metadata document (`SessionMetadata` in `session-store.ts`),
including the `carryover` field used by the instant-switch path. -/
structure SessionMetadata where
  localId : String
  sdkSessionId : Option String
  createdAt : ℕ
  updatedAt : ℕ
  endedAt : Option ℕ := none
  messageCount : ℕ
  totalTurns : ℕ
  totalCostUsd : ℚ
  contextTokens : ℕ
  contextWindowTokens : ℕ
  summary : Option String := none
  carryover : Option (List CarryoverEntry) := none
deriving DecidableEq, Repr

/-- Cumulative long-term summary document (`CumulativeSummary`). -/
structure CumulativeSummary where
  text : String
  sessionCount : ℕ
  updatedAt : ℕ
deriving DecidableEq, Repr

/-- One user's persisted documents: the active-session pointer
(`session.json`), the archived metadata documents
(`sessions/<localId>/metadata.json`), the conversation logs
(`sessions/<localId>/conversation.json`, keyed by `localId`) and the
cumulative summary (`cumulative-summary.json`).  Documents are stored already
in the current format (the legacy-format migration of `readActiveSession`
concerns untyped JSON and is outside the typed model). -/
structure Store where
  active : Option SessionMetadata
  archivedDocs : List SessionMetadata
  conversations : List (String × List ConversationEntry)
  cumulative : Option CumulativeSummary
deriving DecidableEq, Repr

/-- Rotation-engine configuration (`config.session`, `schema.ts`; the schema
supplies the defaults 4 / 0.8 / 0.9 / true / 3, so every field is present). -/
structure Config where
  rotationTimeoutHours : ℚ
  rotationContextRatio : ℚ
  rotationForceRatio : ℚ
  summaryEnabled : Bool
  maxRecentSessions : ℕ
deriving DecidableEq, Repr

-- ─── Session store operations (session-store.ts) ───

/-- `readActiveSession`. -/
def readActiveSession (st : Store) : Option SessionMetadata := st.active

/-- `writeActiveSession`. -/
def writeActiveSession (st : Store) (m : SessionMetadata) : Store :=
  { st with active := some m }

/-- `clearActiveSession` (writes `null` into `session.json`). -/
def clearActiveSession (st : Store) : Store :=
  { st with active := none }

/-- Association-list update for the conversation map: replace the log stored
under `k`, or add it if absent. -/
def convSet (cs : List (String × List ConversationEntry)) (k : String)
    (v : List ConversationEntry) : List (String × List ConversationEntry) :=
  if cs.any (fun p => p.1 = k) then
    cs.map (fun p => if p.1 = k then (k, v) else p)
  else
    cs ++ [(k, v)]

/-- `readConversation`: missing file reads as `[]`. -/
def readConversation (st : Store) (localId : String) : List ConversationEntry :=
  ((st.conversations.find? (fun p => p.1 = localId)).map (fun p => p.2)).getD []

/-- `appendConversation`. -/
def appendConversation (st : Store) (localId : String)
    (entries : List ConversationEntry) : Store :=
  { st with conversations :=
      convSet st.conversations localId (readConversation st localId ++ entries) }

/-- `createActiveSession`: allocates `freshId` (the source draws
`ses_<generateId()>`), zeroes every counter, initialises an empty conversation
log and writes the active pointer. -/
def createActiveSession (freshId : String) (now : ℕ) (st : Store) :
    Store × SessionMetadata :=
  let metadata : SessionMetadata :=
    { localId := freshId
      sdkSessionId := none
      createdAt := now
      updatedAt := now
      messageCount := 0
      totalTurns := 0
      totalCostUsd := 0
      contextTokens := 0
      contextWindowTokens := 0 }
  let st₁ : Store :=
    { st with conversations := convSet st.conversations freshId [] }
  (writeActiveSession st₁ metadata, metadata)

/-- `archiveSession`: writes `metadata.json` under `sessions/<localId>/`,
overwriting a document of the same `localId` if one exists. -/
def upsertArchived (docs : List SessionMetadata) (m : SessionMetadata) :
    List SessionMetadata :=
  if docs.any (fun d => d.localId = m.localId) then
    docs.map (fun d => if d.localId = m.localId then m else d)
  else
    docs ++ [m]

/-- `archiveSession`. -/
def archiveSession (st : Store) (m : SessionMetadata) : Store :=
  { st with archivedDocs := upsertArchived st.archivedDocs m }

/-- Insertion step of the newest-first sort used by `listArchivedSessions`
(stable, descending by `createdAt`). -/
def insertByCreatedDesc (m : SessionMetadata) :
    List SessionMetadata → List SessionMetadata
  | [] => [m]
  | x :: xs =>
      if m.createdAt ≤ x.createdAt then x :: insertByCreatedDesc m xs
      else m :: x :: xs

/-- Stable sort, newest `createdAt` first (the source sorts with the
comparator `b.createdAt - a.createdAt`). -/
def sortByCreatedDesc : List SessionMetadata → List SessionMetadata
  | [] => []
  | x :: xs => insertByCreatedDesc x (sortByCreatedDesc xs)

/-- `listArchivedSessions`: all metadata documents that carry an `endedAt`,
newest first. -/
def listArchivedSessions (st : Store) : List SessionMetadata :=
  sortByCreatedDesc (st.archivedDocs.filter (fun d => d.endedAt.isSome))

/-- `readCumulativeSummary`. -/
def readCumulativeSummary (st : Store) : Option CumulativeSummary :=
  st.cumulative

/-- `writeCumulativeSummary`. -/
def writeCumulativeSummary (st : Store) (s : CumulativeSummary) : Store :=
  { st with cumulative := some s }

-- ─── Rotation engine (session-manager) ───

/-- Per-call environment of the engine: the wall clock (`Date.now()`), the
fresh local id the next `createActiveSession` will allocate, and the outcomes
of the two external text-generation calls. -/
structure Env where
  now : ℕ
  freshId : String
  sumOut : Except Unit String
  condOut : Except Unit String
deriving Repr

/-- Transient per-user background-rotation record (`BackgroundRotation`).
`capturedSession` models the closure capture of `session` by the async body
started in `startBackgroundPrep` (used for the conversation read and the
fallback string); the source's `promise` field is represented by running
`completeBgPrep` at each `await`. -/
inductive BgState where
  | preparing
  | ready
deriving DecidableEq, Repr

structure BackgroundRotation where
  state : BgState
  triggerMessageCount : ℕ
  oldLocalId : String
  summary : Option String := none
  capturedSession : SessionMetadata
deriving DecidableEq, Repr

/-- Engine state of one user: the store plus the (at most one) transient
background-rotation record (`bgRotations.get(userId)`). -/
structure EngineState where
  store : Store
  bg : Option BackgroundRotation
deriving DecidableEq, Repr

/-- `formatTime` renders an ISO timestamp in the `zh-CN` locale for display
inside summary strings; the rendering itself is irrelevant to every property
proved here, so the embedding prints the numeric timestamp. -/
def formatTime (t : ℕ) : String := toString t

/-- The deterministic fallback summary written when the external summarizer
fails. -/
def fallbackSummary (messageCount totalTurns : ℕ) : String :=
  "[Summary generation failed] Session had " ++ toString messageCount ++
    " messages over " ++ toString totalTurns ++ " turns."

/-- `generateSummary`: an empty conversation short-circuits to
`"Empty session."` without touching the API; otherwise the result is the
external call's outcome (`sumOut`). -/
def generateSummary (conversation : List ConversationEntry)
    (sumOut : Except Unit String) : Except Unit String :=
  if conversation.isEmpty then Except.ok "Empty session." else sumOut

/-- JS truthiness of an optional string (`null` and `""` are falsy); used on
`sdkSessionId`. -/
def truthyStr : Option String → Bool
  | none => false
  | some s => ¬(s = "")

-- ─── consolidateOldSessions ───

/-- The archived sessions beyond the recency window:
`listArchivedSessions(userId).slice(maxRecent)`. -/
def oldSessionsOf (cfg : Config) (st : Store) : List SessionMetadata :=
  (listArchivedSessions st).drop cfg.maxRecentSessions

/-- `existing?.sessionCount ?? 0`. -/
def existingCountOf (st : Store) : ℕ :=
  ((readCumulativeSummary st).map (fun c => c.sessionCount)).getD 0

/-- `oldSessions.slice(0, newOldCount - existingSessionCount)`: the
not-yet-condensed prefix of the (newest-first) old sessions. -/
def newSessionsToMergeOf (cfg : Config) (st : Store) : List SessionMetadata :=
  (oldSessionsOf cfg st).take ((oldSessionsOf cfg st).length - existingCountOf st)

/-- `String.startsWith`, computed on the underlying character lists (the
builtin byte-level implementation is equivalent but not kernel-reducible). -/
def strStartsWith (s p : String) : Bool := p.data.isPrefixOf s.data

/-- The fallback marker tested by the consolidation filter. -/
def failedMarker : String := "[Summary generation failed]"

/-- The filter `s.summary && !s.summary.startsWith('[Summary generation
failed]')`; an absent summary and the empty string are both falsy. -/
def summaryUsable (s : SessionMetadata) : Bool :=
  match s.summary with
  | none => false
  | some t => ¬(t = "") ∧ ¬(strStartsWith t failedMarker)

/-- The sessions whose summaries actually enter the condenser input. -/
def mergedSessionsOf (cfg : Config) (st : Store) : List SessionMetadata :=
  (newSessionsToMergeOf cfg st).filter summaryUsable

/-- One line of the condenser input: `[createdAt → endedAt] summary`. -/
def summaryLine (s : SessionMetadata) : String :=
  "[" ++ formatTime s.createdAt ++ " → " ++ formatTime (s.endedAt.getD 0) ++
    "] " ++ s.summary.getD ""

/-- `newSummaries` in `consolidateOldSessions`. -/
def newSummariesOf (cfg : Config) (st : Store) : List String :=
  (mergedSessionsOf cfg st).map summaryLine

/-- `!existing?.text`: no cumulative document, or empty (falsy) text. -/
def existingTextFalsy : Option CumulativeSummary → Bool
  | none => true
  | some c => c.text = ""

/-- The input string handed to the condense API (`inputParts.join('\n\n')`). -/
def condenseInput (existing : Option CumulativeSummary)
    (newSummaries : List String) : String :=
  let parts : List String :=
    (if existingTextFalsy existing then []
     else ["Existing cumulative summary:\n" ++
             ((existing.map (fun c => c.text)).getD "")]) ++
    (if newSummaries.isEmpty then []
     else ["New session summaries to incorporate:\n" ++
             String.intercalate "\n" newSummaries])
  String.intercalate "\n\n" parts

/-- Result of `consolidateOldSessions`: the store afterwards, how many
condense-API calls were made, and whether the call completed without throwing
(`ok = false` models the condense call throwing; the store is then unchanged,
since the cumulative write happens only after a successful call). -/
structure ConsOut where
  store : Store
  condCalls : ℕ
  ok : Bool
deriving Repr

/-- `consolidateOldSessions`. -/
def consolidateOldSessions (cfg : Config) (now : ℕ)
    (condOut : Except Unit String) (st : Store) : ConsOut :=
  let archived := listArchivedSessions st
  if archived.length ≤ cfg.maxRecentSessions then
    ⟨st, 0, true⟩
  else
    let newOldCount := (oldSessionsOf cfg st).length
    if newOldCount ≤ existingCountOf st then
      ⟨st, 0, true⟩
    else
      let newSummaries := newSummariesOf cfg st
      if newSummaries.isEmpty ∧ existingTextFalsy (readCumulativeSummary st) then
        ⟨writeCumulativeSummary st ⟨"", newOldCount, now⟩, 0, true⟩
      else
        match condOut with
        | Except.error _ => ⟨st, 1, false⟩
        | Except.ok text =>
            ⟨writeCumulativeSummary st ⟨text, newOldCount, now⟩, 1, true⟩

-- ─── rotateSession ───

/-- Result of `rotateSession`: the engine state afterwards (the background
record is always deleted), the returned fresh session, and the counts of
`generateSummary` invocations, condense-API calls and `archiveSession`
calls. -/
structure RotateOut where
  state : EngineState
  session : SessionMetadata
  sumCalls : ℕ
  condCalls : ℕ
  archives : ℕ
deriving Repr

/-- `rotateSession`: cancel any background prep, archive the current session
(when it exists and has an SDK session id) with a freshly generated summary —
falling back to `fallbackSummary` if the summarizer throws — consolidate old
sessions (failures logged and swallowed), then clear the active pointer and
create a fresh session. -/
def rotateSession (cfg : Config) (env : Env) (s : EngineState) : RotateOut :=
  let st := s.store
  let archiveStep : Store × ℕ × ℕ :=
    match readActiveSession st with
    | some cur =>
        if truthyStr cur.sdkSessionId then
          let summaryStep : Option String × ℕ :=
            if cfg.summaryEnabled then
              match generateSummary (readConversation st cur.localId) env.sumOut with
              | Except.ok t => (some t, 1)
              | Except.error _ =>
                  (some (fallbackSummary cur.messageCount cur.totalTurns), 1)
            else (none, 0)
          (archiveSession st
              { cur with endedAt := some env.now, summary := summaryStep.1 },
            summaryStep.2, 1)
        else (st, 0, 0)
    | none => (st, 0, 0)
  let cons := consolidateOldSessions cfg env.now env.condOut archiveStep.1
  let st₂ := clearActiveSession cons.store
  let created := createActiveSession env.freshId env.now st₂
  ⟨⟨created.1, none⟩, created.2, archiveStep.2.1, cons.condCalls, archiveStep.2.2⟩

-- ─── Background preparation ───

/-- `startBackgroundPrep`: records the transient background-rotation state
(`state = preparing`, the trigger message count, and the old session's
`localId`); the async body itself runs at the next `await` through
`completeBgPrep`. -/
def startBackgroundPrep (session : SessionMetadata) (s : EngineState) :
    EngineState :=
  let record : BackgroundRotation :=
    { state := BgState.preparing
      triggerMessageCount := session.messageCount
      oldLocalId := session.localId
      summary := none
      capturedSession := session }
  { s with bg := some record }

/-- Result of the async body of `startBackgroundPrep`. -/
structure BgOut where
  bg : BackgroundRotation
  store : Store
  sumCalls : ℕ
  condCalls : ℕ
deriving Repr

/-- The async body started by `startBackgroundPrep` (what `await bg.promise`
runs to completion): generate the summary (when enabled), store it on the
record, consolidate old sessions, and mark the record `ready`; any thrown
error is caught, the fallback summary substituted, and the record still marked
`ready`. -/
def completeBgPrep (cfg : Config) (env : Env) (bg : BackgroundRotation)
    (st : Store) : BgOut :=
  let ses := bg.capturedSession
  let sumStep : Except Unit (Option String) × ℕ :=
    if cfg.summaryEnabled then
      match generateSummary (readConversation st ses.localId) env.sumOut with
      | Except.ok t => (Except.ok (some t), 1)
      | Except.error e => (Except.error e, 1)
    else (Except.ok none, 0)
  match sumStep.1 with
  | Except.error _ =>
      ⟨{ bg with
          summary := some (fallbackSummary ses.messageCount ses.totalTurns)
          state := BgState.ready },
        st, sumStep.2, 0⟩
  | Except.ok summaryOpt =>
      let cons := consolidateOldSessions cfg env.now env.condOut st
      if cons.ok then
        ⟨{ bg with summary := summaryOpt, state := BgState.ready },
          cons.store, sumStep.2, cons.condCalls⟩
      else
        ⟨{ bg with
            summary := some (fallbackSummary ses.messageCount ses.totalTurns)
            state := BgState.ready },
          cons.store, sumStep.2, cons.condCalls⟩

-- ─── performInstantSwitch ───

/-- Result of `performInstantSwitch`: engine state afterwards (the background
record is always deleted), the session returned to the caller, and the counts
of `archiveSession` / `createActiveSession` calls. -/
structure SwitchOut where
  state : EngineState
  session : SessionMetadata
  archives : ℕ
  creates : ℕ
deriving Repr

/-- The role filter applied to carryover candidates
(`e.role === 'user' || e.role === 'assistant'`). -/
def roleIsUserOrAssistant (e : ConversationEntry) : Bool :=
  e.role = Role.user ∨ e.role = Role.assistant

/-- Mapping of a log entry to a carryover entry. -/
def toCarryover (e : ConversationEntry) : CarryoverEntry :=
  ⟨e.timestamp, e.role, e.content⟩

/-- `performInstantSwitch`: re-read the active session; if it is gone or its
`localId` differs from the recorded `oldLocalId`, delete the background record
and fall back to the now-active session (creating one when none exists).
Otherwise extract the carryover (log entries from index
`triggerMessageCount * 2` on), archive the old session with the pre-computed
summary, create the new session, attach the carryover when non-empty, and
delete the background record. -/
def performInstantSwitch (env : Env) (bg : BackgroundRotation) (st : Store) :
    SwitchOut :=
  match readActiveSession st with
  | none =>
      let created := createActiveSession env.freshId env.now st
      ⟨⟨created.1, none⟩, created.2, 0, 1⟩
  | some cur =>
      if cur.localId = bg.oldLocalId then
        let allConversations := readConversation st cur.localId
        let carryover : List CarryoverEntry :=
          ((allConversations.drop (bg.triggerMessageCount * 2)).filter
              roleIsUserOrAssistant).map toCarryover
        let st₁ := archiveSession st
          { cur with endedAt := some env.now, summary := bg.summary }
        let st₂ := clearActiveSession st₁
        let created := createActiveSession env.freshId env.now st₂
        if carryover.isEmpty then
          ⟨⟨created.1, none⟩, created.2, 1, 1⟩
        else
          let ns := { created.2 with carryover := some carryover }
          ⟨⟨writeActiveSession created.1 ns, none⟩, ns, 1, 1⟩
      else
        ⟨⟨st, none⟩, cur, 0, 0⟩

-- ─── ensureActiveSession ───

/-- Rotation reasons. -/
inductive RotationReason where
  | timeout
  | max_context
  | manual
deriving DecidableEq, Repr

/-- Result of `ensureActiveSession`, with the engine state afterwards and the
external-call / archive / create counts of the whole call. -/
structure EnsureOut where
  state : EngineState
  session : SessionMetadata
  rotated : Bool
  reason : Option RotationReason := none
  sumCalls : ℕ := 0
  condCalls : ℕ := 0
  archives : ℕ := 0
  creates : ℕ := 0
deriving Repr

/-- `hoursSinceLastActive >= rotationTimeoutHours` (the source divides the
millisecond difference by 1000·60·60 as a float; here exact rationals). -/
def timeoutHit (cfg : Config) (now : ℕ) (session : SessionMetadata) : Prop :=
  ((now : ℚ) - (session.updatedAt : ℚ)) / (1000 * 60 * 60) ≥
    cfg.rotationTimeoutHours

instance (cfg : Config) (now : ℕ) (session : SessionMetadata) :
    Decidable (timeoutHit cfg now session) := by
  unfold timeoutHit; infer_instance

/-- `contextTokens / contextWindowTokens`. -/
def contextRatioOf (session : SessionMetadata) : ℚ :=
  (session.contextTokens : ℚ) / (session.contextWindowTokens : ℚ)

/-- `ensureActiveSession`: the three-level rotation policy.  1. create a
session when none exists; 2. skip all checks when the session has no SDK
session id; 3. timeout → await any background prep, then rotate
synchronously; 4. ready background prep → instant switch; 5. preparing
background prep → block on it and instant-switch once the force ratio is hit,
otherwise keep serving; 6. no background prep → rotate synchronously at the
force ratio, start background prep at the soft ratio. -/
def ensureActiveSession (cfg : Config) (env : Env) (s : EngineState) :
    EnsureOut :=
  match readActiveSession s.store with
  | none =>
      let created := createActiveSession env.freshId env.now s.store
      { state := ⟨created.1, s.bg⟩, session := created.2, rotated := false
        creates := 1 }
  | some session =>
      if ¬truthyStr session.sdkSessionId then
        { state := s, session := session, rotated := false }
      else if timeoutHit cfg env.now session then
        -- timeout wins: await a pending background task first, then rotate.
        let awaited : EngineState × ℕ × ℕ :=
          match s.bg with
          | some bg =>
              let out := completeBgPrep cfg env bg s.store
              (⟨out.store, none⟩, out.sumCalls, out.condCalls)
          | none => (s, 0, 0)
        let r := rotateSession cfg env awaited.1
        { state := r.state, session := r.session, rotated := true
          reason := some RotationReason.timeout
          sumCalls := awaited.2.1 + r.sumCalls
          condCalls := awaited.2.2 + r.condCalls
          archives := r.archives, creates := 1 }
      else if session.contextWindowTokens = 0 then
        { state := s, session := session, rotated := false }
      else
        let contextRatio := contextRatioOf session
        match s.bg with
        | some bg =>
            if bg.state = BgState.ready then
              let sw := performInstantSwitch env bg s.store
              { state := sw.state, session := sw.session, rotated := true
                reason := some RotationReason.max_context
                archives := sw.archives, creates := sw.creates }
            else if contextRatio ≥ cfg.rotationForceRatio then
              -- force threshold while preparing: await, then instant switch.
              let out := completeBgPrep cfg env bg s.store
              let sw := performInstantSwitch env out.bg out.store
              { state := sw.state, session := sw.session, rotated := true
                reason := some RotationReason.max_context
                sumCalls := out.sumCalls, condCalls := out.condCalls
                archives := sw.archives, creates := sw.creates }
            else
              { state := s, session := session, rotated := false }
        | none =>
            if contextRatio ≥ cfg.rotationForceRatio then
              let r := rotateSession cfg env s
              { state := r.state, session := r.session, rotated := true
                reason := some RotationReason.max_context
                sumCalls := r.sumCalls, condCalls := r.condCalls
                archives := r.archives, creates := 1 }
            else if contextRatio ≥ cfg.rotationContextRatio then
              { state := startBackgroundPrep session s, session := session
                rotated := false }
            else
              { state := s, session := session, rotated := false }

-- ─── updateSessionAfterQuery ───

/-- The usage metadata reported for a completed query (`resultMeta`); every
field is optional in the source. -/
structure ResultMeta where
  costUsd : Option ℚ := none
  turns : Option ℕ := none
  durationMs : Option ℕ := none
  contextTokens : Option ℕ := none
  contextWindowTokens : Option ℕ := none
deriving DecidableEq, Repr

/-- JS truthiness of an optional number: `undefined` and `0` are falsy. -/
def truthyNat : Option ℕ → Option ℕ
  | none => none
  | some v => if v = 0 then none else some v

/-- `updateSessionAfterQuery`: append the user/assistant pair to the log of
the session the query belonged to; then, only if that session is still the
active one, bump `messageCount`, accumulate `totalTurns`/`totalCostUsd`,
overwrite the token fields when a truthy value was reported, drop any
`carryover`, refresh `updatedAt`, and write back. -/
def updateSessionAfterQuery (now : ℕ) (localSessionId : String)
    (userMessage assistantResponse : String) (resultMeta : ResultMeta)
    (blocks : Option (List ConversationBlock)) (st : Store) : Store :=
  let assistantEntry : ConversationEntry :=
    { timestamp := now
      role := Role.assistant
      content := assistantResponse
      blocks := match blocks with
        | some bs => if bs.isEmpty then none else some bs
        | none => none
      metadata := some
        { costUsd := resultMeta.costUsd
          turns := resultMeta.turns
          durationMs := resultMeta.durationMs } }
  let entries : List ConversationEntry :=
    [{ timestamp := now, role := Role.user, content := userMessage },
      assistantEntry]
  let st₁ := appendConversation st localSessionId entries
  match readActiveSession st₁ with
  | some session =>
      if session.localId = localSessionId then
        writeActiveSession st₁
          { session with
              messageCount := session.messageCount + 1
              totalTurns := session.totalTurns + resultMeta.turns.getD 0
              totalCostUsd := session.totalCostUsd + resultMeta.costUsd.getD 0
              contextTokens :=
                (truthyNat resultMeta.contextTokens).getD session.contextTokens
              contextWindowTokens :=
                (truthyNat resultMeta.contextWindowTokens).getD
                  session.contextWindowTokens
              carryover := none
              updatedAt := now }
      else st₁
  | none => st₁

/-- One completed query, as fed to `updateSessionAfterQuery`. -/
structure QueryRec where
  now : ℕ
  localSessionId : String
  userMessage : String
  assistantResponse : String
  resultMeta : ResultMeta
  blocks : Option (List ConversationBlock) := none
deriving Repr

/-- A sequence of completed queries applied in order. -/
def applyQueries (qs : List QueryRec) (st : Store) : Store :=
  qs.foldl
    (fun acc q =>
      updateSessionAfterQuery q.now q.localSessionId q.userMessage
        q.assistantResponse q.resultMeta q.blocks acc)
    st

-- ─── Message queue (queue module) ───

/-- A queued unit of work; the reply/sendFile/showTyping callbacks are
side-effect sinks and carry no state, so the payload identifies the
message. -/
structure QueuedMessage where
  userId : String
  text : String
  platform : String
deriving DecidableEq, Repr

/-- One user's queue state: the FIFO list (`queues`), the processing flag
(`processing`), the pause deadline (`pausedUntil`) and the deadline at which
the pending resume `setTimeout`, if any, fires (`resumeTimers`). -/
structure QueueState where
  queue : List QueuedMessage
  processing : Bool
  pausedUntil : Option ℕ := none
  resumeTimer : Option ℕ := none
deriving DecidableEq, Repr

/-- `DEFAULT_RATE_LIMIT_WAIT_MS = 5 * 60 * 1000`. -/
def DEFAULT_RATE_LIMIT_WAIT_MS : ℕ := 5 * 60 * 1000

/-- Outcome of `sendToAgent` for one unit of work. -/
inductive AgentOutcome where
  | success
  | interrupted
  | rateLimited (resetsAt : Option ℕ)
  | failure
deriving DecidableEq, Repr

/-- `pauseAndScheduleResume`: record the pause deadline and (re)schedule the
resume timer at `now + max(resumeAt - now, 1000)` (clamped to at least one
second, as in `Math.max(resumeAt - Date.now(), 1000)`; with `Nat` subtraction
a past `resumeAt` also clamps to 1000). -/
def pauseAndScheduleResume (now resumeAt : ℕ) (st : QueueState) : QueueState :=
  { st with
      pausedUntil := some resumeAt
      resumeTimer := some (now + max (resumeAt - now) 1000) }

/-- The error handling of `processMessage` (the part that manipulates queue
state), driven by the agent outcome.  On `RateLimitError` the message is
unshifted back onto the front of the queue and the queue paused until
`resetsAt` (or the 5-minute default); the returned flag is `processMessage`'s
return value (`true` = rate limited, caller must stop). -/
def processMessage (now : ℕ) (outcome : AgentOutcome) (message : QueuedMessage)
    (st : QueueState) : QueueState × Bool :=
  match outcome with
  | AgentOutcome.rateLimited resetsAt =>
      let st₁ := { st with queue := message :: st.queue }
      let resumeAt := resetsAt.getD (now + DEFAULT_RATE_LIMIT_WAIT_MS)
      (pauseAndScheduleResume now resumeAt st₁, true)
  | _ => (st, false)

/-- The synchronous prefix of `processNext`, up to its suspension on
`await processMessage`: return when the queue is empty, skip (and clear the
processing flag) when the queue is paused and the deadline has not passed
(`pauseDeadline && Date.now() < pauseDeadline`, with JS truthiness on the
deadline), otherwise clear the stale pause record, set the processing flag and
pop the front message.  The loop continuation after the awaited work is
modelled by composing further steps. -/
def processNextStep (now : ℕ) (st : QueueState) :
    QueueState × Option QueuedMessage :=
  if st.queue.isEmpty then
    ({ st with processing := false }, none)
  else
    let pausedNow : Bool :=
      match st.pausedUntil with
      | some d => 0 < d ∧ now < d
      | none => false
    if pausedNow then
      ({ st with processing := false }, none)
    else
      ({ st with pausedUntil := none, processing := true
                 queue := st.queue.tail },
        st.queue.head?)

/-- The callback of the resume timer installed by `pauseAndScheduleResume`:
delete the timer and the pause record, then re-enter `processNext`. -/
def fireResumeTimer (now : ℕ) (st : QueueState) :
    QueueState × Option QueuedMessage :=
  processNextStep now { st with resumeTimer := none, pausedUntil := none }

/-- `enqueue`: append to the tail; when no processing loop is running for the
user, start one (whose first step is `processNextStep`). -/
def enqueue (now : ℕ) (message : QueuedMessage) (st : QueueState) :
    QueueState × Option QueuedMessage :=
  let st₁ := { st with queue := st.queue ++ [message] }
  if st₁.processing then (st₁, none)
  else processNextStep now st₁

/-- The carryover list of a session, reading an absent field as empty. -/
def carryoverListOf (m : SessionMetadata) : List CarryoverEntry :=
  m.carryover.getD []

-- ─── Concrete fixtures used by witnesses and counterexamples ───

/-- A fixture message. -/
def msgA : QueuedMessage := ⟨"u1", "hello", "telegram"⟩

/-- A second fixture message, queued behind `msgA`. -/
def msgB : QueuedMessage := ⟨"u1", "second", "telegram"⟩

/-- A fixture active session that has already served queries. -/
def sesA : SessionMetadata :=
  { localId := "cur", sdkSessionId := some "sdk-1", createdAt := 10
    updatedAt := 100, messageCount := 2, totalTurns := 5, totalCostUsd := 0
    contextTokens := 95, contextWindowTokens := 100 }

/-- Conversation log of `sesA`: two user/assistant pairs. -/
def convA : List ConversationEntry :=
  [⟨11, Role.user, "q1", none, none⟩, ⟨12, Role.assistant, "a1", none, none⟩,
   ⟨13, Role.user, "q2", none, none⟩, ⟨14, Role.assistant, "a2", none, none⟩]

/-- A fixture store holding `sesA` and its log. -/
def stA : Store :=
  { active := some sesA
    archivedDocs := []
    conversations := [("cur", convA)]
    cumulative := none }

/-- A background-rotation record prepared on `sesA` at trigger count 1. -/
def bgA : BackgroundRotation :=
  { state := BgState.ready, triggerMessageCount := 1, oldLocalId := "cur"
    summary := some "pre-summary", capturedSession := sesA }

/-- A stale background-rotation record whose `oldLocalId` no longer matches
the active session of `stA`. -/
def bgStale : BackgroundRotation :=
  { state := BgState.ready, triggerMessageCount := 1, oldLocalId := "old"
    summary := some "stale-summary", capturedSession := sesA }

/-- A fixture environment. -/
def envA : Env := ⟨200, "fresh", Except.ok "SUM", Except.ok "COND"⟩

-- ─── Theorems ───

/-- Every conversation entry's role is user or assistant, so the carryover
role filter keeps every entry. -/
theorem filter_role_eq_self (l : List ConversationEntry) :
    l.filter roleIsUserOrAssistant = l := by
  induction l with
  | nil => rfl
  | cons e rest ih =>
      have he : roleIsUserOrAssistant e = true := by
        cases h : e.role <;> simp [roleIsUserOrAssistant, h]
      simp [List.filter, he, ih]

/-- C3: a rate-limited unit of work is pushed back onto the front of its
user's queue, the queue is paused until the reset time (or now plus the
5-minute default when none is known), a single resume timer is scheduled at
that deadline, no queued message is dequeued before the deadline, and the
timer's callback resumes processing with exactly the failed message. -/
theorem claim_C3 (now : ℕ) (resetsAt : Option ℕ) (message : QueuedMessage)
    (st : QueueState)
    (hfuture : ∀ r, resetsAt = some r → now + 1000 ≤ r) :
    (processMessage now (AgentOutcome.rateLimited resetsAt) message st).2
        = true ∧
    (processMessage now (AgentOutcome.rateLimited resetsAt) message st).1.queue
        = message :: st.queue ∧
    (processMessage now (AgentOutcome.rateLimited resetsAt) message
          st).1.pausedUntil
        = some (resetsAt.getD (now + DEFAULT_RATE_LIMIT_WAIT_MS)) ∧
    (processMessage now (AgentOutcome.rateLimited resetsAt) message
          st).1.resumeTimer
        = some (resetsAt.getD (now + DEFAULT_RATE_LIMIT_WAIT_MS)) ∧
    (∀ t, t < resetsAt.getD (now + DEFAULT_RATE_LIMIT_WAIT_MS) →
      (processNextStep t
          (processMessage now (AgentOutcome.rateLimited resetsAt) message
            st).1).2 = none ∧
      (processNextStep t
          (processMessage now (AgentOutcome.rateLimited resetsAt) message
            st).1).1.queue = message :: st.queue) ∧
    (∀ t,
      (fireResumeTimer t
          (processMessage now (AgentOutcome.rateLimited resetsAt) message
            st).1).2 = some message ∧
      (fireResumeTimer t
          (processMessage now (AgentOutcome.rateLimited resetsAt) message
            st).1).1.queue = st.queue) := by
  have hge : now + 1000 ≤ resetsAt.getD (now + DEFAULT_RATE_LIMIT_WAIT_MS) := by
    cases h : resetsAt with
    | none => simp [DEFAULT_RATE_LIMIT_WAIT_MS]
    | some r => simpa using hfuture r h
  have hpos : 0 < resetsAt.getD (now + DEFAULT_RATE_LIMIT_WAIT_MS) := by omega
  refine ⟨rfl, rfl, rfl, ?_, ?_, ?_⟩
  · simp only [processMessage, pauseAndScheduleResume]
    congr 1
    omega
  · intro t ht
    constructor <;>
      simp [processMessage, pauseAndScheduleResume, processNextStep, hpos, ht]
  · intro t
    constructor <;>
      simp [processMessage, pauseAndScheduleResume, fireResumeTimer,
        processNextStep]

/-- Witness for C3 at a concrete input: `now = 1000`, reset at `10000`, one
other message already queued. -/
theorem claim_C3_witness :
    (∀ r, (some 10000 : Option ℕ) = some r → 1000 + 1000 ≤ r) ∧
    ((processMessage 1000 (AgentOutcome.rateLimited (some 10000)) msgA
        ⟨[msgB], true, none, none⟩).2 = true ∧
      (processMessage 1000 (AgentOutcome.rateLimited (some 10000)) msgA
          ⟨[msgB], true, none, none⟩).1.queue = msgA :: [msgB] ∧
      (processMessage 1000 (AgentOutcome.rateLimited (some 10000)) msgA
          ⟨[msgB], true, none, none⟩).1.pausedUntil
        = some ((some 10000 : Option ℕ).getD (1000 + DEFAULT_RATE_LIMIT_WAIT_MS)) ∧
      (processMessage 1000 (AgentOutcome.rateLimited (some 10000)) msgA
          ⟨[msgB], true, none, none⟩).1.resumeTimer
        = some ((some 10000 : Option ℕ).getD (1000 + DEFAULT_RATE_LIMIT_WAIT_MS)) ∧
      (∀ t, t < (some 10000 : Option ℕ).getD (1000 + DEFAULT_RATE_LIMIT_WAIT_MS) →
        (processNextStep t
            (processMessage 1000 (AgentOutcome.rateLimited (some 10000)) msgA
              ⟨[msgB], true, none, none⟩).1).2 = none ∧
        (processNextStep t
            (processMessage 1000 (AgentOutcome.rateLimited (some 10000)) msgA
              ⟨[msgB], true, none, none⟩).1).1.queue = msgA :: [msgB]) ∧
      (∀ t,
        (fireResumeTimer t
            (processMessage 1000 (AgentOutcome.rateLimited (some 10000)) msgA
              ⟨[msgB], true, none, none⟩).1).2 = some msgA ∧
        (fireResumeTimer t
            (processMessage 1000 (AgentOutcome.rateLimited (some 10000)) msgA
              ⟨[msgB], true, none, none⟩).1).1.queue = [msgB])) :=
  ⟨by intro r h; cases h; omega,
    claim_C3 1000 (some 10000) msgA ⟨[msgB], true, none, none⟩
      (by intro r h; cases h; omega)⟩

/-- C9: while a user's queue is paused by a rate limit and the deadline has
not passed, `enqueue` appends to the tail, starts no processing (nothing is
dequeued), leaves the pause in place, and no step dequeues anything before
the deadline. -/
theorem claim_C9 (now d : ℕ) (message : QueuedMessage) (st : QueueState)
    (hp : st.pausedUntil = some d) (hd0 : 0 < d) (hd : now < d) :
    (enqueue now message st).1.queue = st.queue ++ [message] ∧
    (enqueue now message st).2 = none ∧
    (enqueue now message st).1.pausedUntil = some d ∧
    (∀ t, t < d →
      (processNextStep t (enqueue now message st).1).2 = none ∧
      (processNextStep t (enqueue now message st).1).1.queue
        = st.queue ++ [message]) := by
  have hne : (st.queue ++ [message]).isEmpty = false := by
    simp [List.isEmpty_iff]
  cases hproc : st.processing with
  | true =>
      refine ⟨by simp [enqueue, hproc], by simp [enqueue, hproc],
        by simp [enqueue, hproc, hp], ?_⟩
      intro t ht
      constructor <;> simp [enqueue, hproc, processNextStep, hne, hp, hd0, ht]
  | false =>
      refine ⟨?_, ?_, ?_, ?_⟩
      · simp [enqueue, hproc, processNextStep, hne, hp, hd0, hd]
      · simp [enqueue, hproc, processNextStep, hne, hp, hd0, hd]
      · simp [enqueue, hproc, processNextStep, hne, hp, hd0, hd]
      · intro t ht
        constructor <;>
          simp [enqueue, hproc, processNextStep, hne, hp, hd0, hd, ht]

/-- Witness for C9 at a concrete input: paused until `9000`, enqueue at
`3000`. -/
theorem claim_C9_witness :
    ((⟨[msgA], false, some 9000, some 9000⟩ : QueueState).pausedUntil
        = some 9000 ∧ 0 < 9000 ∧ 3000 < 9000) ∧
    ((enqueue 3000 msgB ⟨[msgA], false, some 9000, some 9000⟩).1.queue
        = [msgA] ++ [msgB] ∧
      (enqueue 3000 msgB ⟨[msgA], false, some 9000, some 9000⟩).2 = none ∧
      (enqueue 3000 msgB ⟨[msgA], false, some 9000, some 9000⟩).1.pausedUntil
        = some 9000 ∧
      (∀ t, t < 9000 →
        (processNextStep t
            (enqueue 3000 msgB ⟨[msgA], false, some 9000, some 9000⟩).1).2
          = none ∧
        (processNextStep t
            (enqueue 3000 msgB ⟨[msgA], false, some 9000, some 9000⟩).1).1.queue
          = [msgA] ++ [msgB])) :=
  ⟨⟨rfl, by omega, by omega⟩,
    claim_C9 3000 9000 msgB ⟨[msgA], false, some 9000, some 9000⟩ rfl
      (by omega) (by omega)⟩

/-- C1: the staleness guard of the instant switch.  When the re-read active
session is missing or its `localId` differs from the recorded `oldLocalId`,
nothing is archived, no swap happens (an existing active session and the
whole store are left untouched), the background record is deleted, and the
call returns the session that is active afterwards. -/
theorem claim_C1 (env : Env) (bg : BackgroundRotation) (st : Store)
    (hstale : st.active = none ∨
      ∃ s, st.active = some s ∧ s.localId ≠ bg.oldLocalId) :
    (performInstantSwitch env bg st).archives = 0 ∧
    (performInstantSwitch env bg st).state.store.archivedDocs
      = st.archivedDocs ∧
    (performInstantSwitch env bg st).state.bg = none ∧
    (performInstantSwitch env bg st).state.store.active
      = some (performInstantSwitch env bg st).session ∧
    (∀ s, st.active = some s →
      (performInstantSwitch env bg st).state.store = st ∧
      (performInstantSwitch env bg st).session = s) := by
  rcases hstale with hnone | ⟨s, hs, hne⟩
  · refine ⟨?_, ?_, ?_, ?_, ?_⟩ <;>
      simp [performInstantSwitch, readActiveSession, hnone,
        createActiveSession, writeActiveSession]
  · refine ⟨?_, ?_, ?_, ?_, ?_⟩ <;>
      simp [performInstantSwitch, readActiveSession, hs, hne]

/-- Witness for C1 at a concrete input: active session `"cur"`, stale record
for `"old"`. -/
theorem claim_C1_witness :
    (stA.active = none ∨
      ∃ s, stA.active = some s ∧ s.localId ≠ bgStale.oldLocalId) ∧
    ((performInstantSwitch envA bgStale stA).archives = 0 ∧
      (performInstantSwitch envA bgStale stA).state.store.archivedDocs
        = stA.archivedDocs ∧
      (performInstantSwitch envA bgStale stA).state.bg = none ∧
      (performInstantSwitch envA bgStale stA).state.store.active
        = some (performInstantSwitch envA bgStale stA).session ∧
      (∀ s, stA.active = some s →
        (performInstantSwitch envA bgStale stA).state.store = stA ∧
        (performInstantSwitch envA bgStale stA).session = s)) :=
  ⟨Or.inr ⟨sesA, rfl, by simp [sesA, bgStale]⟩,
    claim_C1 envA bgStale stA
      (Or.inr ⟨sesA, rfl, by simp [sesA, bgStale]⟩)⟩

/-- C4: carryover extraction.  On an instant switch whose guard passes, over
a log of `2 * K` entries with trigger message count `T ≤ K`, the carryover
attached to the new session consists of exactly the log entries from index
`T * 2` on, mapped to `{timestamp, role, content}` in order — `2 * (K - T)`
entries, each with role user or assistant — and the new session is the one
returned and left active. -/
theorem claim_C4 (env : Env) (bg : BackgroundRotation) (st : Store)
    (cur : SessionMetadata) (K : ℕ)
    (hact : st.active = some cur)
    (hmatch : cur.localId = bg.oldLocalId)
    (hlen : (readConversation st cur.localId).length = 2 * K)
    (hT : bg.triggerMessageCount ≤ K) :
    carryoverListOf (performInstantSwitch env bg st).session
      = ((readConversation st cur.localId).drop
          (bg.triggerMessageCount * 2)).map toCarryover ∧
    (carryoverListOf (performInstantSwitch env bg st).session).length
      = 2 * (K - bg.triggerMessageCount) ∧
    (∀ e ∈ carryoverListOf (performInstantSwitch env bg st).session,
      e.role = Role.user ∨ e.role = Role.assistant) ∧
    (performInstantSwitch env bg st).state.store.active
      = some (performInstantSwitch env bg st).session := by
  have hroles : ∀ e ∈ carryoverListOf (performInstantSwitch env bg st).session,
      e.role = Role.user ∨ e.role = Role.assistant := by
    intro e _
    cases e.role
    · exact Or.inl rfl
    · exact Or.inr rfl
  have hmain : carryoverListOf (performInstantSwitch env bg st).session
      = ((readConversation st cur.localId).drop
          (bg.triggerMessageCount * 2)).map toCarryover := by
    by_cases hemp :
        (((readConversation st cur.localId).drop
            (bg.triggerMessageCount * 2)).filter roleIsUserOrAssistant |>.map
          toCarryover).isEmpty
    · have : ((readConversation st cur.localId).drop
          (bg.triggerMessageCount * 2)).map toCarryover = [] := by
        rw [filter_role_eq_self] at hemp
        simpa [List.isEmpty_iff] using hemp
      simp [performInstantSwitch, readActiveSession, hact, hmatch.symm,
        carryoverListOf, hemp, createActiveSession, writeActiveSession,
        filter_role_eq_self, this]
    · have h2 : ¬((readConversation st cur.localId).length
          ≤ bg.triggerMessageCount * 2) := by
        intro hle
        apply hemp
        rw [filter_role_eq_self, List.drop_eq_nil_iff.mpr hle]
        rfl
      simp [performInstantSwitch, readActiveSession, hact, hmatch.symm,
        carryoverListOf, hemp, createActiveSession, writeActiveSession,
        filter_role_eq_self, h2]
  refine ⟨hmain, ?_, hroles, ?_⟩
  · rw [hmain]
    simp [List.length_drop, hlen]
    omega
  · by_cases hemp :
        (((readConversation st cur.localId).drop
            (bg.triggerMessageCount * 2)).filter roleIsUserOrAssistant |>.map
          toCarryover).isEmpty <;>
      simp [performInstantSwitch, readActiveSession, hact, hmatch.symm,
        createActiveSession, writeActiveSession, hemp]

/-- Witness for C4 at a concrete input: `K = 2` pairs, trigger at `T = 1`,
yielding the last two log entries as carryover. -/
theorem claim_C4_witness :
    (stA.active = some sesA ∧ sesA.localId = bgA.oldLocalId ∧
      (readConversation stA sesA.localId).length = 2 * 2 ∧
      bgA.triggerMessageCount ≤ 2) ∧
    (carryoverListOf (performInstantSwitch envA bgA stA).session
      = ((readConversation stA sesA.localId).drop
          (bgA.triggerMessageCount * 2)).map toCarryover ∧
    (carryoverListOf (performInstantSwitch envA bgA stA).session).length
      = 2 * (2 - bgA.triggerMessageCount) ∧
    (∀ e ∈ carryoverListOf (performInstantSwitch envA bgA stA).session,
      e.role = Role.user ∨ e.role = Role.assistant) ∧
    (performInstantSwitch envA bgA stA).state.store.active
      = some (performInstantSwitch envA bgA stA).session) :=
  ⟨⟨rfl, rfl, by decide, by decide⟩,
    claim_C4 envA bgA stA sesA 2 rfl rfl (by decide) (by decide)⟩

/-- `truthyNat` on a positive reported value is the value itself. -/
theorem truthyNat_pos (v : ℕ) (h : 0 < v) : truthyNat (some v) = some v := by
  simp [truthyNat, Nat.pos_iff_ne_zero.mp h]

/-- The active-session update performed by `updateSessionAfterQuery` when the
completed query's session is still the active one. -/
theorem update_matched_active (now : ℕ) (lid um ar : String)
    (meta : ResultMeta) (blocks : Option (List ConversationBlock)) (st : Store)
    (s : SessionMetadata) (hact : st.active = some s) (hlid : s.localId = lid) :
    (updateSessionAfterQuery now lid um ar meta blocks st).active = some
      { s with
          messageCount := s.messageCount + 1
          totalTurns := s.totalTurns + meta.turns.getD 0
          totalCostUsd := s.totalCostUsd + meta.costUsd.getD 0
          contextTokens := (truthyNat meta.contextTokens).getD s.contextTokens
          contextWindowTokens :=
            (truthyNat meta.contextWindowTokens).getD s.contextWindowTokens
          carryover := none
          updatedAt := now } := by
  simp [updateSessionAfterQuery, appendConversation, readActiveSession,
    writeActiveSession, hact, hlid]

/-- Counter accumulation over a sequence of completed queries that all target
the session that stays active. -/
theorem applyQueries_stats (qs : List QueryRec) (st : Store)
    (s : SessionMetadata) (hact : st.active = some s)
    (hall : ∀ q ∈ qs, q.localSessionId = s.localId) :
    ∃ s', (applyQueries qs st).active = some s' ∧
      s'.localId = s.localId ∧
      s'.messageCount = s.messageCount + qs.length ∧
      s'.totalCostUsd = s.totalCostUsd +
        (qs.map (fun q => q.resultMeta.costUsd.getD 0)).sum := by
  induction qs generalizing st s with
  | nil => exact ⟨s, by simpa [applyQueries] using hact, rfl, rfl, by simp⟩
  | cons q rest ih =>
      have hq : q.localSessionId = s.localId := hall q (by simp)
      have hstep := update_matched_active q.now q.localSessionId q.userMessage
        q.assistantResponse q.resultMeta q.blocks st s hact hq.symm
      obtain ⟨s', h1, h2, h3, h4⟩ := ih
        (updateSessionAfterQuery q.now q.localSessionId q.userMessage
          q.assistantResponse q.resultMeta q.blocks st)
        _ hstep (by intro q' hq'; simpa using hall q' (by simp [hq']))
      refine ⟨s', ?_, by simpa using h2, ?_, ?_⟩
      · simpa [applyQueries] using h1
      · simp at h3
        simp only [List.length_cons]
        omega
      · simp at h4
        rw [h4]
        simp [List.map_cons, List.sum_cons]
        ring

/-- C8: the query-completion bookkeeping.  When the completed query's session
is still active: `messageCount` rises by exactly one, `totalCostUsd` by the
reported cost, the token fields are overwritten with the (positive) reported
values, and the counters never decrease; over a sequence of `N` queries on
the same fresh session, `messageCount = N` and `totalCostUsd` is the sum of
the reported costs; when the local ids differ, the active session's metadata
is left entirely unchanged. -/
theorem claim_C8 :
    (∀ (now : ℕ) (lid um ar : String) (meta : ResultMeta)
        (blocks : Option (List ConversationBlock)) (st : Store)
        (s : SessionMetadata), st.active = some s → s.localId = lid →
      ∃ s', (updateSessionAfterQuery now lid um ar meta blocks st).active
          = some s' ∧
        s'.messageCount = s.messageCount + 1 ∧
        s'.totalTurns = s.totalTurns + meta.turns.getD 0 ∧
        s'.totalCostUsd = s.totalCostUsd + meta.costUsd.getD 0 ∧
        (0 ≤ meta.costUsd.getD 0 → s.totalCostUsd ≤ s'.totalCostUsd) ∧
        s.messageCount ≤ s'.messageCount ∧ s.totalTurns ≤ s'.totalTurns ∧
        (∀ ct, meta.contextTokens = some ct → 0 < ct →
          s'.contextTokens = ct) ∧
        (∀ cw, meta.contextWindowTokens = some cw → 0 < cw →
          s'.contextWindowTokens = cw)) ∧
    (∀ (qs : List QueryRec) (st : Store) (s : SessionMetadata),
        st.active = some s → (∀ q ∈ qs, q.localSessionId = s.localId) →
        s.messageCount = 0 → s.totalCostUsd = 0 →
      ∃ s', (applyQueries qs st).active = some s' ∧
        s'.messageCount = qs.length ∧
        s'.totalCostUsd
          = (qs.map (fun q => q.resultMeta.costUsd.getD 0)).sum) ∧
    (∀ (now : ℕ) (lid um ar : String) (meta : ResultMeta)
        (blocks : Option (List ConversationBlock)) (st : Store)
        (s : SessionMetadata), st.active = some s → s.localId ≠ lid →
      (updateSessionAfterQuery now lid um ar meta blocks st).active
        = some s) := by
  refine ⟨?_, ?_, ?_⟩
  · intro now lid um ar meta blocks st s hact hlid
    refine ⟨_, update_matched_active now lid um ar meta blocks st s hact hlid,
      rfl, rfl, rfl, ?_, by simp, by simp, ?_, ?_⟩
    · intro hc
      show s.totalCostUsd ≤ s.totalCostUsd + meta.costUsd.getD 0
      exact le_add_of_nonneg_right hc
    · intro ct hct hpos
      simp [hct, truthyNat_pos ct hpos]
    · intro cw hcw hpos
      simp [hcw, truthyNat_pos cw hpos]
  · intro qs st s hact hall hmc hcost
    obtain ⟨s', h1, _, h3, h4⟩ := applyQueries_stats qs st s hact hall
    exact ⟨s', h1, by omega, by rw [h4, hcost]; ring⟩
  · intro now lid um ar meta blocks st s hact hne
    simp [updateSessionAfterQuery, appendConversation, readActiveSession,
      writeActiveSession, hact, hne]

/-- A fixture query-result metadata record. -/
def metaA : ResultMeta :=
  { costUsd := some 2, turns := some 3, durationMs := some 1500
    contextTokens := some 120, contextWindowTokens := some 1000 }

/-- Two fixture queries against session `"cur"`. -/
def qA : QueryRec :=
  ⟨300, "cur", "q1", "a1", metaA, none⟩

def qB : QueryRec :=
  ⟨400, "cur", "q2", "a2", { metaA with costUsd := some 1 }, none⟩

/-- A fresh-session fixture store for the sequence arm of C8. -/
def sesFresh : SessionMetadata :=
  { localId := "cur", sdkSessionId := some "sdk-1", createdAt := 10
    updatedAt := 10, messageCount := 0, totalTurns := 0, totalCostUsd := 0
    contextTokens := 0, contextWindowTokens := 0 }

def stFresh : Store :=
  { active := some sesFresh, archivedDocs := [], conversations := [("cur", [])]
    cumulative := none }

/-- Witness for C8 at concrete inputs: one matched update on `sesA`, a
two-query sequence on a fresh session, and one mismatched update. -/
theorem claim_C8_witness :
    (stA.active = some sesA ∧ sesA.localId = "cur" ∧
      stFresh.active = some sesFresh ∧
      (∀ q ∈ [qA, qB], q.localSessionId = sesFresh.localId) ∧
      sesFresh.messageCount = 0 ∧ sesFresh.totalCostUsd = 0 ∧
      sesA.localId ≠ "other") ∧
    (∃ s', (updateSessionAfterQuery 300 "cur" "q1" "a1" metaA none stA).active
        = some s' ∧
      s'.messageCount = sesA.messageCount + 1 ∧
      s'.totalTurns = sesA.totalTurns + metaA.turns.getD 0 ∧
      s'.totalCostUsd = sesA.totalCostUsd + metaA.costUsd.getD 0 ∧
      (0 ≤ metaA.costUsd.getD 0 → sesA.totalCostUsd ≤ s'.totalCostUsd) ∧
      sesA.messageCount ≤ s'.messageCount ∧ sesA.totalTurns ≤ s'.totalTurns ∧
      (∀ ct, metaA.contextTokens = some ct → 0 < ct →
        s'.contextTokens = ct) ∧
      (∀ cw, metaA.contextWindowTokens = some cw → 0 < cw →
        s'.contextWindowTokens = cw)) ∧
    (∃ s', (applyQueries [qA, qB] stFresh).active = some s' ∧
      s'.messageCount = [qA, qB].length ∧
      s'.totalCostUsd
        = ([qA, qB].map (fun q => q.resultMeta.costUsd.getD 0)).sum) ∧
    (updateSessionAfterQuery 300 "other" "q1" "a1" metaA none stA).active
      = some sesA :=
  ⟨⟨rfl, rfl, rfl, by intro q hq; fin_cases hq <;> rfl, rfl, rfl,
      by simp [sesA]⟩,
    claim_C8.1 300 "cur" "q1" "a1" metaA none stA sesA rfl rfl,
    claim_C8.2.1 [qA, qB] stFresh sesFresh rfl
      (by intro q hq; fin_cases hq <;> rfl) rfl rfl,
    claim_C8.2.2 300 "other" "q1" "a1" metaA none stA sesA rfl
      (by simp [sesA])⟩

/-- With at most `maxRecentSessions` archived sessions, consolidation is a
no-op and makes no condense call. -/
theorem consolidate_few (cfg : Config) (now : ℕ) (condOut : Except Unit String)
    (st : Store)
    (h : (listArchivedSessions st).length ≤ cfg.maxRecentSessions) :
    consolidateOldSessions cfg now condOut st = ⟨st, 0, true⟩ := by
  simp only [consolidateOldSessions]
  rw [if_pos h]

/-- When the out-of-window count does not exceed the stored high-water mark,
consolidation is a no-op and makes no condense call. -/
theorem consolidate_noop (cfg : Config) (now : ℕ)
    (condOut : Except Unit String) (st : Store)
    (h : (oldSessionsOf cfg st).length ≤ existingCountOf st) :
    consolidateOldSessions cfg now condOut st = ⟨st, 0, true⟩ := by
  simp only [consolidateOldSessions]
  by_cases h1 : (listArchivedSessions st).length ≤ cfg.maxRecentSessions
  · rw [if_pos h1]
  · rw [if_neg h1, if_pos h]

/-- Writing the cumulative summary does not change the archive, so the
out-of-window list is unchanged. -/
theorem oldSessionsOf_write (cfg : Config) (st : Store)
    (c : CumulativeSummary) :
    oldSessionsOf cfg (writeCumulativeSummary st c) = oldSessionsOf cfg st :=
  rfl

/-- The stored high-water mark after writing the cumulative summary. -/
theorem existingCountOf_write (st : Store) (c : CumulativeSummary) :
    existingCountOf (writeCumulativeSummary st c) = c.sessionCount :=
  rfl

/-- After any successful consolidation, either the out-of-window count is
already covered by the stored high-water mark, or nothing changed because the
archive fits in the recency window. -/
theorem consolidate_ok_fix (cfg : Config) (now : ℕ)
    (condOut : Except Unit String) (st : Store)
    (hok : (consolidateOldSessions cfg now condOut st).ok = true) :
    (oldSessionsOf cfg (consolidateOldSessions cfg now condOut st).store).length
        ≤ existingCountOf (consolidateOldSessions cfg now condOut st).store ∨
    ((consolidateOldSessions cfg now condOut st).store = st ∧
      (listArchivedSessions st).length ≤ cfg.maxRecentSessions) := by
  by_cases h1 : (listArchivedSessions st).length ≤ cfg.maxRecentSessions
  · exact Or.inr ⟨by rw [consolidate_few cfg now condOut st h1], h1⟩
  · left
    by_cases h2 : (oldSessionsOf cfg st).length ≤ existingCountOf st
    · rw [consolidate_noop cfg now condOut st h2]
      exact h2
    · simp only [consolidateOldSessions] at hok ⊢
      rw [if_neg h1, if_neg h2] at hok ⊢
      by_cases h3 : ((newSummariesOf cfg st).isEmpty = true ∧
          existingTextFalsy (readCumulativeSummary st) = true)
      · rw [if_pos h3] at hok ⊢
        rw [oldSessionsOf_write, existingCountOf_write]
      · rw [if_neg h3] at hok ⊢
        cases condOut with
        | error e => exact absurd hok (by simp)
        | ok text =>
            rw [oldSessionsOf_write, existingCountOf_write]

/-- C5: consolidation idempotence and the high-water mark.  (1) after a
successful run, an immediate second run with the same archive returns the
store unchanged (same cumulative text and `sessionCount`) and makes no
condense call; (2) a single run never decreases the stored `sessionCount`;
(3) a run whose out-of-window count does not exceed the stored
`sessionCount` changes nothing and makes no condense call. -/
theorem claim_C5 :
    (∀ (cfg : Config) (now₁ now₂ : ℕ) (cond₁ cond₂ : Except Unit String)
        (st : Store),
      (consolidateOldSessions cfg now₁ cond₁ st).ok = true →
      consolidateOldSessions cfg now₂ cond₂
          (consolidateOldSessions cfg now₁ cond₁ st).store
        = ⟨(consolidateOldSessions cfg now₁ cond₁ st).store, 0, true⟩) ∧
    (∀ (cfg : Config) (now : ℕ) (condOut : Except Unit String) (st : Store),
      existingCountOf st
        ≤ existingCountOf (consolidateOldSessions cfg now condOut st).store) ∧
    (∀ (cfg : Config) (now : ℕ) (condOut : Except Unit String) (st : Store),
      ¬ existingCountOf st < (oldSessionsOf cfg st).length →
      consolidateOldSessions cfg now condOut st = ⟨st, 0, true⟩) := by
  refine ⟨?_, ?_, ?_⟩
  · intro cfg now₁ now₂ cond₁ cond₂ st hok
    rcases consolidate_ok_fix cfg now₁ cond₁ st hok with h | ⟨hst, hfew⟩
    · exact consolidate_noop cfg now₂ cond₂ _ h
    · rw [hst]
      exact consolidate_few cfg now₂ cond₂ st hfew
  · intro cfg now condOut st
    by_cases h1 : (listArchivedSessions st).length ≤ cfg.maxRecentSessions
    · rw [consolidate_few cfg now condOut st h1]
    · by_cases h2 : (oldSessionsOf cfg st).length ≤ existingCountOf st
      · rw [consolidate_noop cfg now condOut st h2]
      · simp only [consolidateOldSessions]
        rw [if_neg h1, if_neg h2]
        by_cases h3 : ((newSummariesOf cfg st).isEmpty = true ∧
            existingTextFalsy (readCumulativeSummary st) = true)
        · rw [if_pos h3, existingCountOf_write]
          dsimp only
          omega
        · rw [if_neg h3]
          cases condOut with
          | error e => simp
          | ok text =>
              rw [existingCountOf_write]
              dsimp only
              omega
  · intro cfg now condOut st h
    exact consolidate_noop cfg now condOut st (by omega)

/-- An archived fixture session with a usable summary (newest). -/
def arcA : SessionMetadata :=
  { localId := "a1", sdkSessionId := some "sdk-a1", createdAt := 5
    updatedAt := 6, endedAt := some 7, messageCount := 3, totalTurns := 4
    totalCostUsd := 0, contextTokens := 10, contextWindowTokens := 100
    summary := some "talked about plants" }

/-- An older archived fixture session with a usable summary. -/
def arcB : SessionMetadata :=
  { localId := "a2", sdkSessionId := some "sdk-a2", createdAt := 3
    updatedAt := 4, endedAt := some 5, messageCount := 2, totalTurns := 2
    totalCostUsd := 0, contextTokens := 10, contextWindowTokens := 100
    summary := some "talked about stars" }

/-- An old archived fixture session whose summary is the failure fallback. -/
def arcFail : SessionMetadata :=
  { localId := "a3", sdkSessionId := some "sdk-a3", createdAt := 1
    updatedAt := 2, endedAt := some 3, messageCount := 7, totalTurns := 9
    totalCostUsd := 0, contextTokens := 10, contextWindowTokens := 100
    summary := some "[Summary generation failed] Session had 7 messages over 9 turns." }

/-- Consolidation fixture: recency window 1, two archived sessions, no
cumulative summary yet. -/
def cfgB : Config := ⟨4, 4/5, 9/10, true, 1⟩

def stB : Store :=
  { active := none, archivedDocs := [arcA, arcB], conversations := []
    cumulative := none }

/-- Witness for C5 at a concrete input: two archived sessions with window 1;
the first run condenses one of them, the second run is a no-op. -/
theorem claim_C5_witness :
    ((consolidateOldSessions cfgB 50 (Except.ok "X") stB).ok = true ∧
      ¬ existingCountOf stB < (oldSessionsOf cfgB stB).length → False) ∧
    (consolidateOldSessions cfgB 60 (Except.ok "Y")
        (consolidateOldSessions cfgB 50 (Except.ok "X") stB).store
      = ⟨(consolidateOldSessions cfgB 50 (Except.ok "X") stB).store, 0, true⟩) ∧
    existingCountOf stB
      ≤ existingCountOf (consolidateOldSessions cfgB 50 (Except.ok "X") stB).store ∧
    consolidateOldSessions cfgB 50 (Except.ok "X")
        (writeCumulativeSummary stB ⟨"Z", 1, 40⟩)
      = ⟨writeCumulativeSummary stB ⟨"Z", 1, 40⟩, 0, true⟩ :=
  ⟨by intro h; exact absurd (by decide) h.2,
    claim_C5.1 cfgB 50 60 (Except.ok "X") (Except.ok "Y") stB (by decide),
    claim_C5.2.1 cfgB 50 (Except.ok "X") stB,
    claim_C5.2.2 cfgB 50 (Except.ok "X")
      (writeCumulativeSummary stB ⟨"Z", 1, 40⟩) (by decide)⟩

/-- An out-of-window count above the stored high-water mark rules out both
early-return branches of consolidation. -/
theorem oldLen_pos_branches (cfg : Config) (st : Store)
    (h : existingCountOf st < (oldSessionsOf cfg st).length) :
    ¬((listArchivedSessions st).length ≤ cfg.maxRecentSessions) ∧
    ¬((oldSessionsOf cfg st).length ≤ existingCountOf st) := by
  have hlen : (oldSessionsOf cfg st).length
      = (listArchivedSessions st).length - cfg.maxRecentSessions := by
    simp [oldSessionsOf]
  constructor <;> omega

/-- C10: failed-or-absent summaries in consolidation.  (1) an old session
whose summary fails the usability filter never enters the condenser input;
(2) a successful run that proceeds advances `sessionCount` over all
out-of-window sessions, the unusable ones included; (3) sessions inside the
covered tail (the stored `sessionCount` oldest out-of-window sessions) are
never part of the merge set of any later run, so once covered they are
permanently excluded; (4) when nothing is mergeable and no cumulative text
exists, a cumulative summary with empty text and the advanced `sessionCount`
is written without any condense call. -/
theorem claim_C10 :
    (∀ (cfg : Config) (st : Store) (s : SessionMetadata),
      s ∈ newSessionsToMergeOf cfg st → summaryUsable s = false →
      s ∉ mergedSessionsOf cfg st) ∧
    (∀ (cfg : Config) (now : ℕ) (condOut : Except Unit String) (st : Store),
      existingCountOf st < (oldSessionsOf cfg st).length →
      (consolidateOldSessions cfg now condOut st).ok = true →
      existingCountOf (consolidateOldSessions cfg now condOut st).store
        = (oldSessionsOf cfg st).length) ∧
    (∀ (cfg : Config) (st : Store) (s : SessionMetadata),
      (oldSessionsOf cfg st).Nodup →
      s ∈ (oldSessionsOf cfg st).drop
        ((oldSessionsOf cfg st).length - existingCountOf st) →
      s ∉ mergedSessionsOf cfg st) ∧
    (∀ (cfg : Config) (now : ℕ) (condOut : Except Unit String) (st : Store),
      existingCountOf st < (oldSessionsOf cfg st).length →
      (newSummariesOf cfg st).isEmpty = true →
      existingTextFalsy (readCumulativeSummary st) = true →
      consolidateOldSessions cfg now condOut st
        = ⟨writeCumulativeSummary st
            ⟨"", (oldSessionsOf cfg st).length, now⟩, 0, true⟩) := by
  refine ⟨?_, ?_, ?_, ?_⟩
  · intro cfg st s _ hbad hcontra
    have := List.of_mem_filter (p := summaryUsable) hcontra
    rw [hbad] at this
    exact Bool.false_ne_true this
  · intro cfg now condOut st hlt hok
    obtain ⟨h1, h2⟩ := oldLen_pos_branches cfg st hlt
    simp only [consolidateOldSessions] at hok ⊢
    rw [if_neg h1, if_neg h2] at hok ⊢
    by_cases h3 : ((newSummariesOf cfg st).isEmpty = true ∧
        existingTextFalsy (readCumulativeSummary st) = true)
    · rw [if_pos h3]
      rw [if_pos h3] at hok
      rw [existingCountOf_write]
    · rw [if_neg h3]
      rw [if_neg h3] at hok
      cases condOut with
      | error e => exact absurd hok (by simp)
      | ok text => rw [existingCountOf_write]
  · intro cfg st s hnd hdrop hcontra
    have hsub : s ∈ newSessionsToMergeOf cfg st :=
      List.mem_of_mem_filter hcontra
    rw [newSessionsToMergeOf] at hsub
    exact List.disjoint_take_drop hnd (le_refl _) hsub hdrop
  · intro cfg now condOut st hlt hempty hfalsy
    obtain ⟨h1, h2⟩ := oldLen_pos_branches cfg st hlt
    simp only [consolidateOldSessions]
    rw [if_neg h1, if_neg h2, if_pos ⟨hempty, hfalsy⟩]

/-- Consolidation fixture with a failed summary among the old sessions:
window 1, old sessions `[arcB, arcFail]`. -/
def stC : Store :=
  { active := none, archivedDocs := [arcA, arcB, arcFail]
    conversations := [], cumulative := none }

/-- The same archive once fully covered (`sessionCount = 2`). -/
def stC2 : Store := writeCumulativeSummary stC ⟨"X", 2, 50⟩

/-- Fixture where the only old session has a failed summary and no cumulative
text exists yet. -/
def stD : Store :=
  { active := none, archivedDocs := [arcA, arcFail]
    conversations := [], cumulative := none }

/-- Witness for C10 at concrete inputs: `arcFail` is excluded from the merge
set but covered by the advanced count; once covered it stays outside every
later merge set; and the empty-input run writes an empty cumulative text
without condensing. -/
theorem claim_C10_witness :
    (arcFail ∈ newSessionsToMergeOf cfgB stC ∧ summaryUsable arcFail = false ∧
      arcFail ∉ mergedSessionsOf cfgB stC) ∧
    (existingCountOf stC < (oldSessionsOf cfgB stC).length ∧
      (consolidateOldSessions cfgB 50 (Except.ok "X") stC).ok = true ∧
      existingCountOf (consolidateOldSessions cfgB 50 (Except.ok "X") stC).store
        = (oldSessionsOf cfgB stC).length) ∧
    ((oldSessionsOf cfgB stC2).Nodup ∧
      arcFail ∈ (oldSessionsOf cfgB stC2).drop
        ((oldSessionsOf cfgB stC2).length - existingCountOf stC2) ∧
      arcFail ∉ mergedSessionsOf cfgB stC2) ∧
    (existingCountOf stD < (oldSessionsOf cfgB stD).length ∧
      consolidateOldSessions cfgB 70 (Except.ok "unused") stD
        = ⟨writeCumulativeSummary stD
            ⟨"", (oldSessionsOf cfgB stD).length, 70⟩, 0, true⟩) :=
  ⟨⟨by decide, by decide,
      claim_C10.1 cfgB stC arcFail (by decide) (by decide)⟩,
    ⟨by decide, by decide,
      claim_C10.2.1 cfgB 50 (Except.ok "X") stC (by decide) (by decide)⟩,
    ⟨by decide, by decide,
      claim_C10.2.2.1 cfgB stC2 arcFail (by decide) (by decide)⟩,
    ⟨by decide,
      claim_C10.2.2.2 cfgB 70 (Except.ok "unused") stD (by decide) (by decide)
        (by decide)⟩⟩

/-- Consolidation touches only the cumulative-summary document. -/
theorem consolidate_preserves (cfg : Config) (now : ℕ)
    (condOut : Except Unit String) (st : Store) :
    (consolidateOldSessions cfg now condOut st).store.active = st.active ∧
    (consolidateOldSessions cfg now condOut st).store.archivedDocs
      = st.archivedDocs ∧
    (consolidateOldSessions cfg now condOut st).store.conversations
      = st.conversations := by
  simp only [consolidateOldSessions]
  repeat' split
  all_goals exact ⟨rfl, rfl, rfl⟩

/-- The fresh session created by `createActiveSession`. -/
def freshSession (freshId : String) (now : ℕ) : SessionMetadata :=
  { localId := freshId, sdkSessionId := none, createdAt := now
    updatedAt := now, messageCount := 0, totalTurns := 0, totalCostUsd := 0
    contextTokens := 0, contextWindowTokens := 0 }

/-- C7 (amended): rotating a session that has no SDK session id never invokes
the summarizer and archives nothing — the archive is untouched — and the
active pointer is replaced by a freshly created zeroed session; the
cumulative-summary consolidation step, however, still runs as part of the
rotation (its effect is exactly `consolidateOldSessions`). -/
theorem claim_C7 (cfg : Config) (env : Env) (s : EngineState)
    (ses : SessionMetadata) (hact : s.store.active = some ses)
    (hsdk : ses.sdkSessionId = none) :
    (rotateSession cfg env s).sumCalls = 0 ∧
    (rotateSession cfg env s).archives = 0 ∧
    (rotateSession cfg env s).state.store.archivedDocs
      = s.store.archivedDocs ∧
    (rotateSession cfg env s).session = freshSession env.freshId env.now ∧
    (rotateSession cfg env s).state.store.active
      = some (freshSession env.freshId env.now) ∧
    (rotateSession cfg env s).state.store.cumulative
      = (consolidateOldSessions cfg env.now env.condOut s.store).store.cumulative ∧
    (rotateSession cfg env s).state.bg = none := by
  have hc := consolidate_preserves cfg env.now env.condOut s.store
  refine ⟨?_, ?_, ?_, ?_, ?_, ?_, ?_⟩ <;>
    simp [rotateSession, readActiveSession, hact, hsdk, truthyStr,
      clearActiveSession, createActiveSession, writeActiveSession,
      freshSession, hc.2.1]

/-- A fixture active session that has never been queried (no SDK id). -/
def sesNoSdk : SessionMetadata :=
  { localId := "virgin", sdkSessionId := none, createdAt := 20
    updatedAt := 20, messageCount := 0, totalTurns := 0, totalCostUsd := 0
    contextTokens := 0, contextWindowTokens := 0 }

/-- A store whose active session has no SDK id while two archived sessions
wait beyond the recency window. -/
def stE : Store :=
  { active := some sesNoSdk, archivedDocs := [arcA, arcB]
    conversations := [("virgin", [])], cumulative := none }

/-- Counterexample to C7 as stated: with archived sessions beyond the recency
window, rotating a session that has no SDK id is *not* a no-op apart from
session creation — the condenser is called once and the cumulative summary
changes. -/
theorem claim_C7_counterexample :
    sesNoSdk.sdkSessionId = none ∧
    stE.active = some sesNoSdk ∧
    (rotateSession cfgB ⟨90, "fresh", Except.ok "S", Except.ok "Z"⟩
        ⟨stE, none⟩).condCalls = 1 ∧
    (rotateSession cfgB ⟨90, "fresh", Except.ok "S", Except.ok "Z"⟩
        ⟨stE, none⟩).state.store.cumulative ≠ stE.cumulative := by
  refine ⟨rfl, rfl, by decide, by decide⟩

/-- Witness for the amended C7 at the same concrete input. -/
theorem claim_C7_witness :
    (stE.active = some sesNoSdk ∧ sesNoSdk.sdkSessionId = none) ∧
    ((rotateSession cfgB ⟨90, "fresh", Except.ok "S", Except.ok "Z"⟩
        ⟨stE, none⟩).sumCalls = 0 ∧
      (rotateSession cfgB ⟨90, "fresh", Except.ok "S", Except.ok "Z"⟩
        ⟨stE, none⟩).archives = 0 ∧
      (rotateSession cfgB ⟨90, "fresh", Except.ok "S", Except.ok "Z"⟩
        ⟨stE, none⟩).state.store.archivedDocs = stE.archivedDocs ∧
      (rotateSession cfgB ⟨90, "fresh", Except.ok "S", Except.ok "Z"⟩
        ⟨stE, none⟩).session = freshSession "fresh" 90 ∧
      (rotateSession cfgB ⟨90, "fresh", Except.ok "S", Except.ok "Z"⟩
        ⟨stE, none⟩).state.store.active = some (freshSession "fresh" 90) ∧
      (rotateSession cfgB ⟨90, "fresh", Except.ok "S", Except.ok "Z"⟩
        ⟨stE, none⟩).state.store.cumulative
        = (consolidateOldSessions cfgB 90 (Except.ok "Z") stE).store.cumulative ∧
      (rotateSession cfgB ⟨90, "fresh", Except.ok "S", Except.ok "Z"⟩
        ⟨stE, none⟩).state.bg = none) :=
  ⟨⟨rfl, rfl⟩,
    claim_C7 cfgB ⟨90, "fresh", Except.ok "S", Except.ok "Z"⟩ ⟨stE, none⟩
      sesNoSdk rfl rfl⟩

/-- The archived document is present after `archiveSession`. -/
theorem mem_upsertArchived (docs : List SessionMetadata)
    (m : SessionMetadata) : m ∈ upsertArchived docs m := by
  unfold upsertArchived
  split
  · rename_i h
    rw [List.any_eq_true] at h
    obtain ⟨d, hd, hdm⟩ := h
    exact List.mem_map.mpr ⟨d, hd, by simp [of_decide_eq_true hdm]⟩
  · simp

/-- Archiving a session whose `localId` is not yet present appends it. -/
theorem upsertArchived_fresh (docs : List SessionMetadata)
    (m : SessionMetadata) (h : ∀ d ∈ docs, d.localId ≠ m.localId) :
    upsertArchived docs m = docs ++ [m] := by
  have h' : docs.any (fun d => decide (d.localId = m.localId)) = false := by
    rw [List.any_eq_false]
    intro d hd
    simpa using h d hd
  unfold upsertArchived
  simp only [h']
  rfl

/-- Projection form of `consolidate_preserves` for the archive. -/
theorem consolidate_archivedDocs (cfg : Config) (now : ℕ)
    (condOut : Except Unit String) (st : Store) :
    (consolidateOldSessions cfg now condOut st).store.archivedDocs
      = st.archivedDocs :=
  (consolidate_preserves cfg now condOut st).2.1

/-- Projection form of `consolidate_preserves` for the active pointer. -/
theorem consolidate_active (cfg : Config) (now : ℕ)
    (condOut : Except Unit String) (st : Store) :
    (consolidateOldSessions cfg now condOut st).store.active = st.active :=
  (consolidate_preserves cfg now condOut st).1

/-- C6 (first arm): when the summarizer fails inside a synchronous
`rotateSession`, the old session is still archived — with the deterministic
fallback summary — and a fresh session is created. -/
theorem rotate_fallback (cfg : Config) (env : Env) (s : EngineState)
    (cur : SessionMetadata) (hact : s.store.active = some cur)
    (hsdk : truthyStr cur.sdkSessionId = true)
    (hsum : cfg.summaryEnabled = true)
    (hfail : env.sumOut = Except.error ())
    (hconv : readConversation s.store cur.localId ≠ []) :
    (rotateSession cfg env s).archives = 1 ∧
    { cur with endedAt := some env.now
               summary := some (fallbackSummary cur.messageCount
                 cur.totalTurns) }
      ∈ (rotateSession cfg env s).state.store.archivedDocs ∧
    (rotateSession cfg env s).session = freshSession env.freshId env.now ∧
    (rotateSession cfg env s).state.store.active
      = some (freshSession env.freshId env.now) := by
  have hie : (readConversation s.store cur.localId).isEmpty = false := by
    simpa [List.isEmpty_iff] using hconv
  refine ⟨?_, ?_, ?_, ?_⟩ <;>
    simp [rotateSession, readActiveSession, hact, hsdk, hsum, hfail,
      generateSummary, hie, clearActiveSession, createActiveSession,
      writeActiveSession, freshSession, consolidate_archivedDocs,
      archiveSession, mem_upsertArchived]

/-- C6 (second arm, preparation): when the summarizer fails inside the
background-prep body, the record still becomes `ready`, carrying the fallback
summary built from the captured session, and the store is untouched. -/
theorem bgPrep_fallback (cfg : Config) (env : Env) (bg : BackgroundRotation)
    (st : Store) (hsum : cfg.summaryEnabled = true)
    (hfail : env.sumOut = Except.error ())
    (hconv : readConversation st bg.capturedSession.localId ≠ []) :
    (completeBgPrep cfg env bg st).bg.state = BgState.ready ∧
    (completeBgPrep cfg env bg st).bg.summary
      = some (fallbackSummary bg.capturedSession.messageCount
          bg.capturedSession.totalTurns) ∧
    (completeBgPrep cfg env bg st).store = st ∧
    (completeBgPrep cfg env bg st).bg.oldLocalId = bg.oldLocalId ∧
    (completeBgPrep cfg env bg st).bg.triggerMessageCount
      = bg.triggerMessageCount := by
  have hie : (readConversation st bg.capturedSession.localId).isEmpty
      = false := by
    simpa [List.isEmpty_iff] using hconv
  refine ⟨?_, ?_, ?_, ?_, ?_⟩ <;>
    simp [completeBgPrep, hsum, hfail, generateSummary, hie]

/-- C6 (second arm, switch): the instant switch that consumes a
fallback-carrying record still archives the old session with that summary and
creates a fresh session. -/
theorem switch_completes (env : Env) (bg : BackgroundRotation) (st : Store)
    (cur : SessionMetadata) (hact : st.active = some cur)
    (hid : cur.localId = bg.oldLocalId) :
    (performInstantSwitch env bg st).archives = 1 ∧
    (performInstantSwitch env bg st).creates = 1 ∧
    { cur with endedAt := some env.now, summary := bg.summary }
      ∈ (performInstantSwitch env bg st).state.store.archivedDocs ∧
    (performInstantSwitch env bg st).state.store.active
      = some (performInstantSwitch env bg st).session ∧
    (performInstantSwitch env bg st).session.contextTokens = 0 ∧
    (performInstantSwitch env bg st).session.localId = env.freshId ∧
    (performInstantSwitch env bg st).state.bg = none := by
  by_cases hemp :
      ((((readConversation st cur.localId).drop
          (bg.triggerMessageCount * 2)).filter roleIsUserOrAssistant).map
        toCarryover).isEmpty <;>
    refine ⟨?_, ?_, ?_, ?_, ?_, ?_, ?_⟩ <;>
      simp [performInstantSwitch, readActiveSession, hact, hid.symm, hemp,
        clearActiveSession, createActiveSession, writeActiveSession,
        archiveSession, mem_upsertArchived]

/-- C6: whenever the external summarizer fails during a rotation — the
synchronous `rotateSession` path or the background-prep path — the archived
session's summary is the deterministic fallback string built from its
`messageCount` and `totalTurns`, and the rotation still completes: the old
session is archived and a fresh active session is created. -/
theorem claim_C6 :
    (∀ (cfg : Config) (env : Env) (s : EngineState) (cur : SessionMetadata),
      s.store.active = some cur → truthyStr cur.sdkSessionId = true →
      cfg.summaryEnabled = true → env.sumOut = Except.error () →
      readConversation s.store cur.localId ≠ [] →
      (rotateSession cfg env s).archives = 1 ∧
      { cur with endedAt := some env.now
                 summary := some (fallbackSummary cur.messageCount
                   cur.totalTurns) }
        ∈ (rotateSession cfg env s).state.store.archivedDocs ∧
      (rotateSession cfg env s).session = freshSession env.freshId env.now ∧
      (rotateSession cfg env s).state.store.active
        = some (freshSession env.freshId env.now)) ∧
    (∀ (cfg : Config) (env : Env) (bg : BackgroundRotation) (st : Store)
        (cur : SessionMetadata),
      cfg.summaryEnabled = true → env.sumOut = Except.error () →
      readConversation st bg.capturedSession.localId ≠ [] →
      st.active = some cur → cur.localId = bg.oldLocalId →
      (completeBgPrep cfg env bg st).bg.state = BgState.ready ∧
      (completeBgPrep cfg env bg st).bg.summary
        = some (fallbackSummary bg.capturedSession.messageCount
            bg.capturedSession.totalTurns) ∧
      (performInstantSwitch env (completeBgPrep cfg env bg st).bg
          (completeBgPrep cfg env bg st).store).archives = 1 ∧
      { cur with endedAt := some env.now
                 summary := some (fallbackSummary bg.capturedSession.messageCount
                   bg.capturedSession.totalTurns) }
        ∈ (performInstantSwitch env (completeBgPrep cfg env bg st).bg
            (completeBgPrep cfg env bg st).store).state.store.archivedDocs ∧
      (performInstantSwitch env (completeBgPrep cfg env bg st).bg
          (completeBgPrep cfg env bg st).store).state.store.active
        = some (performInstantSwitch env (completeBgPrep cfg env bg st).bg
            (completeBgPrep cfg env bg st).store).session ∧
      (performInstantSwitch env (completeBgPrep cfg env bg st).bg
          (completeBgPrep cfg env bg st).store).session.contextTokens = 0) := by
  constructor
  · intro cfg env s cur hact hsdk hsum hfail hconv
    exact rotate_fallback cfg env s cur hact hsdk hsum hfail hconv
  · intro cfg env bg st cur hsum hfail hconv hact hid
    obtain ⟨hready, hsummary, hstore, hold, _⟩ :=
      bgPrep_fallback cfg env bg st hsum hfail hconv
    have hact' : (completeBgPrep cfg env bg st).store.active = some cur := by
      rw [hstore]; exact hact
    have hid' : cur.localId = (completeBgPrep cfg env bg st).bg.oldLocalId := by
      rw [hold]; exact hid
    obtain ⟨ha, _, hmem, hactive, hct, _, _⟩ :=
      switch_completes env (completeBgPrep cfg env bg st).bg
        (completeBgPrep cfg env bg st).store cur hact' hid'
    rw [hsummary] at hmem
    exact ⟨hready, hsummary, ha, hmem, hactive, hct⟩

/-- Failure environment: the summary API throws, the condense API succeeds. -/
def envFail : Env := ⟨200, "fresh", Except.error (), Except.ok "C"⟩

/-- A preparing background record captured on `sesA`. -/
def bgPrepA : BackgroundRotation :=
  { state := BgState.preparing, triggerMessageCount := 2, oldLocalId := "cur"
    summary := none, capturedSession := sesA }

/-- Witness for C6 at concrete inputs: a failing summarizer during a
synchronous rotation of `sesA`, and during the background prep consumed by an
instant switch. -/
theorem claim_C6_witness :
    (stA.active = some sesA ∧ truthyStr sesA.sdkSessionId = true ∧
      cfgB.summaryEnabled = true ∧ envFail.sumOut = Except.error () ∧
      readConversation stA sesA.localId ≠ [] ∧
      sesA.localId = bgPrepA.oldLocalId) ∧
    ((rotateSession cfgB envFail ⟨stA, none⟩).archives = 1 ∧
      { sesA with endedAt := some envFail.now
                  summary := some (fallbackSummary sesA.messageCount
                    sesA.totalTurns) }
        ∈ (rotateSession cfgB envFail ⟨stA, none⟩).state.store.archivedDocs ∧
      (rotateSession cfgB envFail ⟨stA, none⟩).session
        = freshSession envFail.freshId envFail.now ∧
      (rotateSession cfgB envFail ⟨stA, none⟩).state.store.active
        = some (freshSession envFail.freshId envFail.now)) ∧
    ((completeBgPrep cfgB envFail bgPrepA stA).bg.state = BgState.ready ∧
      (completeBgPrep cfgB envFail bgPrepA stA).bg.summary
        = some (fallbackSummary bgPrepA.capturedSession.messageCount
            bgPrepA.capturedSession.totalTurns) ∧
      (performInstantSwitch envFail (completeBgPrep cfgB envFail bgPrepA stA).bg
          (completeBgPrep cfgB envFail bgPrepA stA).store).archives = 1 ∧
      { sesA with endedAt := some envFail.now
                  summary := some (fallbackSummary
                    bgPrepA.capturedSession.messageCount
                    bgPrepA.capturedSession.totalTurns) }
        ∈ (performInstantSwitch envFail
            (completeBgPrep cfgB envFail bgPrepA stA).bg
            (completeBgPrep cfgB envFail bgPrepA stA).store).state.store.archivedDocs ∧
      (performInstantSwitch envFail (completeBgPrep cfgB envFail bgPrepA stA).bg
          (completeBgPrep cfgB envFail bgPrepA stA).store).state.store.active
        = some (performInstantSwitch envFail
            (completeBgPrep cfgB envFail bgPrepA stA).bg
            (completeBgPrep cfgB envFail bgPrepA stA).store).session ∧
      (performInstantSwitch envFail (completeBgPrep cfgB envFail bgPrepA stA).bg
          (completeBgPrep cfgB envFail bgPrepA stA).store).session.contextTokens
        = 0) :=
  ⟨⟨rfl, rfl, rfl, rfl, by decide, rfl⟩,
    claim_C6.1 cfgB envFail ⟨stA, none⟩ sesA rfl rfl rfl rfl (by decide),
    claim_C6.2 cfgB envFail bgPrepA stA sesA rfl rfl (by decide) rfl rfl⟩

/-- The background-prep body only writes the cumulative summary (through
consolidation) and its own record's `summary`/`state`; the active pointer,
the archive, and the record's guard fields are untouched. -/
theorem completeBgPrep_preserves (cfg : Config) (env : Env)
    (bg : BackgroundRotation) (st : Store) :
    (completeBgPrep cfg env bg st).store.active = st.active ∧
    (completeBgPrep cfg env bg st).store.archivedDocs = st.archivedDocs ∧
    (completeBgPrep cfg env bg st).bg.oldLocalId = bg.oldLocalId ∧
    (completeBgPrep cfg env bg st).bg.triggerMessageCount
      = bg.triggerMessageCount := by
  simp only [completeBgPrep]
  repeat' split
  all_goals
    first
    | exact ⟨rfl, rfl, rfl, rfl⟩
    | exact ⟨consolidate_active cfg env.now env.condOut st,
        consolidate_archivedDocs cfg env.now env.condOut st, rfl, rfl⟩

/-- Under the guard and a not-yet-archived `localId`, the instant switch
appends exactly one archived document: the old session closed at `now` with
the pre-computed summary. -/
theorem switch_archive_append (env : Env) (bg : BackgroundRotation)
    (st : Store) (cur : SessionMetadata) (hact : st.active = some cur)
    (hid : cur.localId = bg.oldLocalId)
    (hfresh : ∀ d ∈ st.archivedDocs, d.localId ≠ cur.localId) :
    (performInstantSwitch env bg st).state.store.archivedDocs
      = st.archivedDocs
        ++ [{ cur with endedAt := some env.now, summary := bg.summary }] := by
  have hup := upsertArchived_fresh st.archivedDocs
    { cur with endedAt := some env.now, summary := bg.summary }
    (by intro d hd; simpa using hfresh d hd)
  by_cases hemp :
      ((((readConversation st cur.localId).drop
          (bg.triggerMessageCount * 2)).filter roleIsUserOrAssistant).map
        toCarryover).isEmpty <;>
    simp [performInstantSwitch, readActiveSession, hact, hid.symm, hemp,
      clearActiveSession, createActiveSession, writeActiveSession,
      archiveSession, hup]

/-- C2: the force-threshold path.  With a `preparing` background record for
the active session and the context ratio at or above `rotationForceRatio`
(and no timeout), `ensureActiveSession` awaits the background body and
performs the instant switch: it reports `rotated = true` with reason
`max_context`, makes exactly one archive call and one create call, appends
exactly one archived document (the old session closed with the prepared
summary), leaves the freshly created session active with
`contextTokens = 0`, and clears the background record. -/
theorem claim_C2 (cfg : Config) (env : Env) (s : EngineState)
    (session : SessionMetadata) (bg : BackgroundRotation)
    (hact : s.store.active = some session)
    (hsdk : truthyStr session.sdkSessionId = true)
    (hnt : ¬ timeoutHit cfg env.now session)
    (hwin : session.contextWindowTokens ≠ 0)
    (hforce : contextRatioOf session ≥ cfg.rotationForceRatio)
    (hbg : s.bg = some bg)
    (hprep : bg.state = BgState.preparing)
    (hmatch : bg.oldLocalId = session.localId)
    (hfresh : ∀ d ∈ s.store.archivedDocs, d.localId ≠ session.localId) :
    (ensureActiveSession cfg env s).rotated = true ∧
    (ensureActiveSession cfg env s).reason = some RotationReason.max_context ∧
    (ensureActiveSession cfg env s).archives = 1 ∧
    (ensureActiveSession cfg env s).creates = 1 ∧
    (ensureActiveSession cfg env s).state.store.archivedDocs
      = s.store.archivedDocs
        ++ [{ session with
                endedAt := some env.now
                summary := (completeBgPrep cfg env bg s.store).bg.summary }] ∧
    (ensureActiveSession cfg env s).state.store.active
      = some (ensureActiveSession cfg env s).session ∧
    (ensureActiveSession cfg env s).session.contextTokens = 0 ∧
    (ensureActiveSession cfg env s).session.localId = env.freshId ∧
    (ensureActiveSession cfg env s).state.bg = none := by
  obtain ⟨hpa, hpd, hpo, _⟩ := completeBgPrep_preserves cfg env bg s.store
  have hact' : (completeBgPrep cfg env bg s.store).store.active
      = some session := by rw [hpa]; exact hact
  have hid' : session.localId
      = (completeBgPrep cfg env bg s.store).bg.oldLocalId := by
    rw [hpo]; exact hmatch.symm
  have hfresh' : ∀ d ∈ (completeBgPrep cfg env bg s.store).store.archivedDocs,
      d.localId ≠ session.localId := by rw [hpd]; exact hfresh
  obtain ⟨ha1, hc1, _, hactv, hct, hlid, hbgn⟩ :=
    switch_completes env (completeBgPrep cfg env bg s.store).bg
      (completeBgPrep cfg env bg s.store).store session hact' hid'
  have happend := switch_archive_append env
    (completeBgPrep cfg env bg s.store).bg
    (completeBgPrep cfg env bg s.store).store session hact' hid' hfresh'
  rw [hpd] at happend
  refine ⟨?_, ?_, ?_, ?_, ?_, ?_, ?_, ?_, ?_⟩ <;>
    simp [ensureActiveSession, readActiveSession, hact, hsdk, hnt, hwin,
      hprep, hforce, hbg, ha1, hc1, hactv, hct, hlid, hbgn, happend]

/-- Default thresholds configuration: 4h timeout, soft 0.8, force 0.9,
summaries on, recency window 3. -/
def cfgA : Config := ⟨4, 4/5, 9/10, true, 3⟩

/-- Witness for C2 at a concrete input: `sesA` at 95% context usage with a
preparing background record. -/
theorem claim_C2_witness :
    (stA.active = some sesA ∧ truthyStr sesA.sdkSessionId = true ∧
      ¬ timeoutHit cfgA envA.now sesA ∧ sesA.contextWindowTokens ≠ 0 ∧
      contextRatioOf sesA ≥ cfgA.rotationForceRatio ∧
      bgPrepA.state = BgState.preparing ∧
      bgPrepA.oldLocalId = sesA.localId) ∧
    ((ensureActiveSession cfgA envA ⟨stA, some bgPrepA⟩).rotated = true ∧
      (ensureActiveSession cfgA envA ⟨stA, some bgPrepA⟩).reason
        = some RotationReason.max_context ∧
      (ensureActiveSession cfgA envA ⟨stA, some bgPrepA⟩).archives = 1 ∧
      (ensureActiveSession cfgA envA ⟨stA, some bgPrepA⟩).creates = 1 ∧
      (ensureActiveSession cfgA envA ⟨stA, some bgPrepA⟩).state.store.archivedDocs
        = stA.archivedDocs
          ++ [{ sesA with
                  endedAt := some envA.now
                  summary := (completeBgPrep cfgA envA bgPrepA stA).bg.summary }] ∧
      (ensureActiveSession cfgA envA ⟨stA, some bgPrepA⟩).state.store.active
        = some (ensureActiveSession cfgA envA ⟨stA, some bgPrepA⟩).session ∧
      (ensureActiveSession cfgA envA ⟨stA, some bgPrepA⟩).session.contextTokens
        = 0 ∧
      (ensureActiveSession cfgA envA ⟨stA, some bgPrepA⟩).session.localId
        = envA.freshId ∧
      (ensureActiveSession cfgA envA ⟨stA, some bgPrepA⟩).state.bg = none) :=
  ⟨⟨rfl, rfl,
      by norm_num [timeoutHit, cfgA, sesA, envA],
      by decide,
      by norm_num [contextRatioOf, cfgA, sesA],
      rfl, rfl⟩,
    claim_C2 cfgA envA ⟨stA, some bgPrepA⟩ sesA bgPrepA rfl rfl
      (by norm_num [timeoutHit, cfgA, sesA, envA]) (by decide)
      (by norm_num [contextRatioOf, cfgA, sesA]) rfl rfl rfl
      (by intro d hd; simp [stA] at hd)⟩

end BetterClaw
